import Mathlib

/-!
# Verification of the semantic memory store (`MemoryService`)

Shallow embedding of `src/backend/app/services/memory_service.py` together
with the ORM model declarations it refers to
(`app/models/memory.py`, `app/models/career.py`, `app/models/habits.py`,
`app/models/finance.py`, `app/models/mood.py`, `app/models/user.py`).

Modelling conventions:
* Python `datetime` values are `Nat` timestamps; float scores are `ℚ`;
  embedding vectors are `List ℚ`.
* The sentence-transformer encoder is external; it is modelled as a finite
  association table from texts to vectors, a missing entry being an encode
  failure (`_get_embedding` returns `None` in both failure modes).
* Python name resolution is modelled explicitly: `from M import C` succeeds
  iff `C` is in the list of classes the module `M` defines, and a
  class-attribute access `C.a` (as built by `filter`/`order_by` expressions)
  succeeds iff `a` is a declared column of `C`.  The class lists and column
  lists below are transcribed from the model files.  This matters because
  `memory_service.py` imports the classes `Memory` and `UserSkill`, which do
  not exist anywhere in the repository (the models are named `UserMemory`
  and `Skill`), and accesses the columns `Skill.proficiency_level`,
  `MoodLog.timestamp` and `Budget.total_amount`, none of which exist.
* Every operation returns its value, the new `World` (service state, the
  on-disk index snapshot and the relational database) and a trace of the
  externally visible calls it made (index mutations and searches, disk
  writes, error logs).
-/

/-- A Python exception absorbed by one of the service's `try/except` blocks. -/
inductive PyErr where
  | importError (className : String)
  | attributeError (attr : String)
  deriving DecidableEq

/-- Classes defined in `app/models/memory.py` (there is no class `Memory`). -/
def memoryModuleClasses : List String :=
  ["UserMemory", "Embedding", "Conversation"]

/-- Classes defined in `app/models/career.py` (there is no class `UserSkill`). -/
def careerModuleClasses : List String :=
  ["CareerGoal", "Skill", "LearningPath", "LearningPathMilestone", "LearningPathProject"]

/-- Classes defined in `app/models/habits.py`. -/
def habitsModuleClasses : List String :=
  ["Habit", "Task", "CalendarEvent", "HabitCompletion", "HabitLog"]

/-- Classes defined in `app/models/finance.py`. -/
def financeModuleClasses : List String :=
  ["Expense", "Budget", "Income", "FinancialGoal"]

/-- Columns of `class Skill` in `app/models/career.py` (lines 51-78).
There is no `proficiency_level` column; the score column is
`proficiency_score`. -/
def skillColumns : List String :=
  ["id", "user_id", "name", "category", "current_level", "target_level",
   "proficiency_score", "is_priority", "learning_resources", "practice_hours",
   "created_at", "updated_at", "last_practiced"]

/-- Columns of `class MoodLog` in `app/models/mood.py`.  There is no
`timestamp` column (the datetime columns are `log_date`, `log_time`,
`logged_at`, `created_at`, `updated_at`) and no `mood_value` column
(the score column is `mood_score`). -/
def moodLogColumns : List String :=
  ["id", "user_id", "mood_score", "energy_level", "stress_level",
   "anxiety_level", "primary_emotion", "secondary_emotions", "activities",
   "triggers", "location", "weather", "sleep_hours", "sleep_quality",
   "exercise_minutes", "social_interactions", "notes", "gratitude_notes",
   "log_date", "log_time", "logged_at", "entry_method", "is_private",
   "created_at", "updated_at"]

/-- Columns of `class Budget` in `app/models/finance.py` (lines 50-92).
There is no `total_amount` column; the budget limit column is `amount`. -/
def budgetColumns : List String :=
  ["id", "user_id", "name", "category", "amount", "period_type",
   "start_date", "end_date", "spent_amount", "is_active", "alert_threshold",
   "alert_enabled", "created_at", "updated_at"]

/-- `from <module> import <className>`: succeeds iff the module defines it. -/
def importFrom (classes : List String) (className : String) : Except PyErr Unit :=
  if classes.contains className then Except.ok () else Except.error (PyErr.importError className)

/-- Class-attribute access `C.a`, as evaluated while building a
`filter`/`order_by` expression: succeeds iff `a` is a declared column. -/
def classAttr (columns : List String) (attr : String) : Except PyErr Unit :=
  if columns.contains attr then Except.ok () else Except.error (PyErr.attributeError attr)

/-! ## Relational rows (from `app/models/*.py`) -/

/-- A row of the `user` table (`app/models/user.py`).  The `preferences`
column holds JSON text; `User.get_preferences` decodes it to a dict, which
is modelled directly as an association list (JSON decoding abstracted). -/
structure UserRec where
  id : Nat
  email : String
  name : String
  preferences : List (String × String)
  deriving DecidableEq

/-- A row of the `usermemory` table (`class UserMemory`,
`app/models/memory.py` lines 12-58). -/
structure MemoryRec where
  id : Nat
  user_id : Nat
  content : String
  memory_type : String
  category : Option String
  source : Option String
  confidence_score : ℚ
  importance_score : ℚ
  is_active : Bool
  vector_id : Option Nat
  access_count : Nat
  last_accessed : Option Nat
  created_at : Nat
  updated_at : Nat
  deriving DecidableEq

/-- `UserMemory.update_access` (`app/models/memory.py` lines 52-55):
increments `access_count` and stamps `last_accessed`.  No search or context
operation of the service ever invokes it (see `reads_are_effect_free`). -/
def MemoryRec.update_access (m : MemoryRec) (now : Nat) : MemoryRec :=
  { m with access_count := m.access_count + 1, last_accessed := some now }

/-- A row of the `careergoal` table (`app/models/career.py` lines 12-48). -/
structure CareerGoalRec where
  id : Nat
  user_id : Nat
  title : String
  description : String
  status : String
  priority : String
  created_at : Nat
  deriving DecidableEq

/-- A row of the `skill` table (`class Skill`, `app/models/career.py`). -/
structure SkillRec where
  id : Nat
  user_id : Nat
  name : String
  category : String
  proficiency_score : ℚ
  created_at : Nat
  deriving DecidableEq

/-- A row of the `habit` table (`app/models/habits.py` lines 12-66). -/
structure HabitRec where
  id : Nat
  user_id : Nat
  name : String
  description : String
  category : String
  frequency : String
  created_at : Nat
  deriving DecidableEq

/-- A row of the `habitlog` table (`app/models/habits.py` lines 200-221). -/
structure HabitLogRec where
  id : Nat
  user_id : Nat
  habit_id : Nat
  date : Nat
  completed : Bool
  deriving DecidableEq

/-- A row of the `budget` table (`app/models/finance.py` lines 50-92). -/
structure BudgetRec where
  id : Nat
  user_id : Nat
  name : String
  amount : ℚ
  created_at : Nat
  deriving DecidableEq

/-- A row of the `financialgoal` table (`app/models/finance.py` lines
132-175).  The name column is `title`; there is no `name` and no
`category` column (the tag column is `goal_type`). -/
structure FinancialGoalRec where
  id : Nat
  user_id : Nat
  title : String
  description : String
  goal_type : String
  target_amount : ℚ
  current_amount : ℚ
  created_at : Nat
  deriving DecidableEq

/-- A row of the `expense` table (`app/models/finance.py` lines 12-47). -/
structure ExpenseRec where
  id : Nat
  user_id : Nat
  description : String
  category : String
  amount : ℚ
  date : Nat
  deriving DecidableEq

/-- A row of the `moodlog` table (`app/models/mood.py` lines 12-57). -/
structure MoodLogRec where
  id : Nat
  user_id : Nat
  mood_score : Nat
  logged_at : Nat
  created_at : Nat
  deriving DecidableEq

/-- The relational store, one field per table the service touches. -/
structure Database where
  users : List UserRec
  memories : List MemoryRec
  career_goals : List CareerGoalRec
  skills : List SkillRec
  habits : List HabitRec
  habit_logs : List HabitLogRec
  budgets : List BudgetRec
  financial_goals : List FinancialGoalRec
  expenses : List ExpenseRec
  mood_logs : List MoodLogRec
  deriving DecidableEq

/-! ## The FAISS index and the embedding model -/

/-- The FAISS flat index: an append-only sequence of vectors. -/
structure FaissIndex where
  vectors : List (List ℚ)
  deriving DecidableEq

/-- `faiss_index.ntotal`: number of stored vectors. -/
def FaissIndex.ntotal (i : FaissIndex) : Nat := i.vectors.length

/-- `faiss_index.add(v)`: appends one vector (its position is the old `ntotal`). -/
def FaissIndex.add (i : FaissIndex) (v : List ℚ) : FaissIndex :=
  ⟨i.vectors ++ [v]⟩

/-- The loaded sentence-transformer, modelled as a finite text-to-vector
table (the encoder itself is external to this repository). -/
def EmbedModel : Type := List (String × List ℚ)

instance : DecidableEq EmbedModel := by
  unfold EmbedModel
  infer_instance

/-- `_get_embedding` (`memory_service.py` lines 73-83) for a loaded model:
returns the encoding, or `none` when encoding fails (the `except` at line
81 logs and returns `None`).  The `None`-model case is handled at the call
sites, which all test `self.embedding_model` first. -/
def getEmbedding (m : EmbedModel) (text : String) : Option (List ℚ) :=
  (m.find? (fun p => p.1 == text)).map (fun p => p.2)

/-- The full state an operation can read or write: the two service handles
(`self.embedding_model`, `self.faiss_index`, `None` when unavailable), the
on-disk snapshot at `self.index_path`, and the relational database. -/
structure World where
  embedding_model : Option EmbedModel
  faiss_index : Option FaissIndex
  disk : Option FaissIndex
  db : Database
  deriving DecidableEq

/-- Externally visible calls an operation makes, in order. -/
inductive Event where
  | indexAdd (pos : Nat)
  | indexSearch (k : Nat)
  | diskWrite
  | logError
  deriving DecidableEq

/-- `true` exactly on `Event.indexSearch` events. -/
def Event.isIndexSearch : Event → Bool
  | Event.indexSearch _ => true
  | _ => false

/-! ## Search results

`search_memories` and `semantic_search` return lists of result dicts.  The
shapes are taken from the construction sites in `memory_service.py`
(lines 194-298, 309-364, 732-738); `origin` records which construction
site (hence which table) produced a result. -/

/-- Which table / path a result dict was built from. -/
inductive Origin where
  | memoryTable
  | careerTable
  | careerSkillTable
  | habitTable
  | financeTable
  | financeExpenseTable
  | vectorIndex
  deriving DecidableEq

/-- Relevance tier of the untargeted keyword path: generic memories before
career goals before habits before financial goals (scores 0.95, 0.9, 0.85,
0.8 at lines 293, 311, 333, 354). -/
def tierRank : Origin → Nat
  | Origin.memoryTable => 0
  | Origin.vectorIndex => 0
  | Origin.careerTable => 1
  | Origin.careerSkillTable => 1
  | Origin.habitTable => 2
  | Origin.financeTable => 3
  | Origin.financeExpenseTable => 3

/-- One result dict: `{score, content, memory_type, timestamp, metadata}`
(domain-table results also carry a `description`). -/
structure SearchResult where
  origin : Origin
  score : ℚ
  content : String
  description : Option String
  memory_type : String
  timestamp : Nat
  deriving DecidableEq

/-- The contents a user owns across every table the search paths read:
used to state that search results never leak another user's records. -/
def ownedContents (db : Database) (u : Nat) : List String :=
  ((db.memories.filter (fun m => m.user_id == u)).map (fun m => m.content))
    ++ ((db.career_goals.filter (fun g => g.user_id == u)).map (fun g => g.title))
    ++ ((db.skills.filter (fun s => s.user_id == u)).map (fun s => s.name))
    ++ ((db.habits.filter (fun h => h.user_id == u)).map (fun h => h.name))
    ++ ((db.financial_goals.filter (fun g => g.user_id == u)).map (fun g => g.title))
    ++ ((db.expenses.filter (fun e => e.user_id == u)).map (fun e => e.description))

/-! ## `search_memories` (`memory_service.py` lines 161-375)

The `try` block opens by importing the ORM classes it queries:

```
from ..models.memory import Memory          # line 177
from ..models.career import CareerGoal, UserSkill   # line 178
```

`app/models/memory.py` defines no class `Memory` (see
`memoryModuleClasses`), so line 177 raises `ImportError`; control jumps to
the handler at line 373, which logs and returns `[]`.  The keyword-query
code at lines 182-371 is therefore unreachable on every call — and it
refers to the nonexistent classes `Memory` and `UserSkill`, so it has no
executable semantics to embed; the `Except.ok` branches below are dead
(see `searchMemories_eq`). -/
def searchMemories (w : World) (user_id : Nat) (query : String)
    (memory_type : Option String) (top_k : Nat) :
    List SearchResult × World × List Event :=
  match importFrom memoryModuleClasses "Memory" with
  | Except.error _ => ([], w, [Event.logError])
  | Except.ok _ =>
    match importFrom careerModuleClasses "UserSkill" with
    | Except.error _ => ([], w, [Event.logError])
    | Except.ok _ => ([], w, [])


/-! ## `semantic_search` (`memory_service.py` lines 683-754)

Lines 697-699: if the embedding model or the FAISS index is unavailable,
fall back to `search_memories` with the same arguments.  Lines 702-705:
if embedding the query fails, same fallback.  Otherwise line 709 calls
`self.faiss_index.search(query_embedding, top_k)` — note the count is
`top_k`, not `top_k * 2` — and then line 712 runs
`from ..models.memory import Memory`, which raises `ImportError` (there is
no such class), so the handler at line 752 logs and falls back to
`search_memories`.  The returned distances/indices are consumed only by
the unreachable code at lines 718-747. -/
def semanticSearch (w : World) (user_id : Nat) (query : String)
    (memory_type : Option String) (top_k : Nat) :
    List SearchResult × World × List Event :=
  match w.embedding_model, w.faiss_index with
  | none, _ => searchMemories w user_id query memory_type top_k
  | some _, none => searchMemories w user_id query memory_type top_k
  | some em, some _idx =>
    match getEmbedding em query with
    | none => searchMemories w user_id query memory_type top_k
    | some _qv =>
      match importFrom memoryModuleClasses "Memory" with
      | Except.error _ =>
        let r := searchMemories w user_id query memory_type top_k
        (r.1, r.2.1, Event.indexSearch top_k :: Event.logError :: r.2.2)
      | Except.ok _ => ([], w, [Event.indexSearch top_k])

/-! ## `store_memory` (`memory_service.py` lines 89-159)

Line 98: if the model or the index is unavailable, log a warning and
return `False` with nothing touched.  Line 103-105: if embedding the
content fails, return `False`.  Otherwise: line 122 reads
`vector_id = self.faiss_index.ntotal`, line 123 appends the embedding to
the index, line 126 calls `_save_index` (lines 64-71: `faiss.write_index`
inside `try/except` — a failed disk write is logged and swallowed, which
the `diskOk` parameter models).  Lines 129-152 then try to write the
database record: `from ..models.memory import Memory` (line 132) raises
`ImportError` — no class `Memory` exists — the `except` at line 151 logs
it, and line 155 returns `True` anyway.  The record construction at lines
139-147 (and the `memory_metadata` dict of lines 111-118 and the
`content_hash` of line 108, which feed only that record) is unreachable,
so no memory row is ever written; the `Except.ok` branch below is dead. -/
def storeMemory (diskOk : Bool) (w : World) (user_id : Nat) (content : String)
    (memory_type : String) (metadata : List (String × String)) :
    Bool × World × List Event :=
  match w.embedding_model, w.faiss_index with
  | none, _ => (false, w, [])
  | some _, none => (false, w, [])
  | some em, some idx =>
    match getEmbedding em content with
    | none => (false, w, [])
    | some emb =>
      let vector_id := idx.ntotal
      let idx' := idx.add emb
      let w₁ : World := { w with faiss_index := some idx' }
      let saved : World × List Event :=
        if diskOk then ({ w₁ with disk := some idx' }, [Event.diskWrite])
        else (w₁, [Event.logError])
      match importFrom memoryModuleClasses "Memory" with
      | Except.error _ =>
        (true, saved.1, Event.indexAdd vector_id :: (saved.2 ++ [Event.logError]))
      | Except.ok _ => (true, saved.1, Event.indexAdd vector_id :: saved.2)

/-! ## `get_user_context` (`memory_service.py` lines 394-549)

The whole body is a single `try/except`: any exception anywhere inside
degrades the **entire** bundle to `{"user_id": user_id, "error": "Failed
to get context"}` (lines 543-545) — there is no per-section isolation, and
no section of the bundle is produced by `search_memories`.  Three of its
reads reference columns that do not exist on the queried models:

* line 472 `UserSkill.proficiency_level` (`UserSkill` is `Skill` via the
  `import ... as` at line 409; `Skill` has only `proficiency_score`),
  reached whenever `context_type` is `"career"` or `"general"`;
* line 524 `budget.total_amount` (`Budget` has only `amount`), reached in
  the `"finance"`/`"general"` branch when the user has a budget row;
* lines 531-533 `MoodLog.timestamp` (`MoodLog` has `logged_at` /
  `log_date` / `created_at`), reached unconditionally after the branches.

Consequently every call raises before the final `return context` and the
bundle is always the error placeholder (`get_user_context_always_fallback`).
The bundle construction below is still translated so that the reachable
prefix of each path is faithful. -/

/-- `order_by(col.desc())`: stable-enough descending sort by a `Nat` key
(the relative order of rows never becomes observable — every
`get_user_context` call aborts before returning the bundle). -/
def insertByDesc {α : Type} (key : α → Nat) (x : α) : List α → List α
  | [] => [x]
  | y :: ys => if key y < key x then x :: y :: ys else y :: insertByDesc key x ys

/-- Descending sort by a `Nat` key. -/
def sortByDesc {α : Type} (key : α → Nat) (l : List α) : List α :=
  l.foldr (insertByDesc key) []

/-- The `context["preferences"]` section (lines 431-460).  `getattr(user,
"timezone", None)` and `getattr(user, "theme_preference", None)` are both
`None` — the `user` table declares neither column — so the fallbacks come
from the decoded preferences dict or the literal defaults. -/
structure Preferences where
  name : Option String
  email : Option String
  timezone : String
  theme : String
  branch : Option String
  year : Option String
  target_role : Option String
  interests : Option String
  location : Option String
  deriving DecidableEq

/-- `prefs.get(key)` on the decoded preferences dict. -/
def lookupPref (prefs : List (String × String)) (k : String) : Option String :=
  (prefs.find? (fun p => p.1 == k)).map (fun p => p.2)

/-- Build the preferences section for a found user (lines 431-460). -/
def prefsOf (user : UserRec) : Preferences :=
  let prefs := user.preferences
  { name := some user.name
    email := some user.email
    timezone := (lookupPref prefs "timezone").getD "Asia/Kolkata"
    theme := (lookupPref prefs "theme").getD "system"
    branch := lookupPref prefs "branch"
    year := lookupPref prefs "year"
    target_role := lookupPref prefs "target_role"
    interests := lookupPref prefs "interests"
    location := lookupPref prefs "location" }

/-- The `context["career_progress"]` section (lines 474-479). -/
structure CareerProgress where
  current_goals : List String
  skills_in_progress : List String
  recent_achievements : List String
  deriving DecidableEq

/-- The `context["financial_status"]` section (lines 522-528); never
constructed, because building it starts from the nonexistent
`budget.total_amount`. -/
structure FinancialStatus where
  monthly_budget : ℚ
  savings_goal : ℚ
  current_savings : ℚ
  deriving DecidableEq

/-- The context bundle assembled at lines 415-536 (`None`/`[]` model the
empty placeholders of the base structure at lines 416-427). -/
structure ContextData where
  user_id : Nat
  context_type : String
  recent_activities : List String
  preferences : Option Preferences
  goals : List String
  habits : List String
  habit_streaks : Option (List (Nat × Nat))
  mood_trends : List (Nat × Nat)
  financial_status : Option FinancialStatus
  career_progress : Option CareerProgress
  deriving DecidableEq

/-- The base context dict of lines 416-427. -/
def baseContext (u : Nat) (ct : String) : ContextData :=
  { user_id := u, context_type := ct, recent_activities := [],
    preferences := none, goals := [], habits := [], habit_streaks := none,
    mood_trends := [], financial_status := none, career_progress := none }

/-- What `get_user_context` returns: the assembled bundle, or the fallback
dict `{"user_id": user_id, "error": "Failed to get context"}` built by the
`except` handler at lines 543-545. -/
inductive ContextResult where
  | ok (ctx : ContextData)
  | failed (user_id : Nat)
  deriving DecidableEq

/-- The career/general section (lines 463-479).  The `career_goals` read
succeeds; the skills read then evaluates `UserSkill.proficiency_level`
(line 472) and raises `AttributeError`, so the `career_progress` value is
never installed; `skills_in_progress` below is a placeholder for the rows
the raising query would have produced. -/
def careerSection (db : Database) (u mm : Nat) (ctx : ContextData) :
    Except PyErr ContextData :=
  let career_goals :=
    (sortByDesc (fun g => g.created_at) (db.career_goals.filter (fun g => g.user_id == u))).take mm
  let progress : CareerProgress :=
    { current_goals :=
        (career_goals.filter (fun g => g.status == "active")).map (fun g => g.title)
      skills_in_progress := []
      recent_achievements :=
        (career_goals.filter (fun g => g.status == "completed")).map (fun g => g.title) }
  (classAttr skillColumns "proficiency_level").map (fun _ =>
    { ctx with career_progress := some progress })

/-- The `habit_streaks` dict (lines 496-503): insertion-ordered counter of
completed logs per habit id. -/
def bumpStreak (acc : List (Nat × Nat)) (log : HabitLogRec) : List (Nat × Nat) :=
  let acc' := if acc.any (fun p => p.1 == log.habit_id) then acc
              else acc ++ [(log.habit_id, 0)]
  if log.completed then
    acc'.map (fun p => if p.1 == log.habit_id then (p.1, p.2 + 1) else p)
  else acc'

/-- Fold of lines 497-501 over the recent habit logs. -/
def buildStreaks (logs : List HabitLogRec) : List (Nat × Nat) :=
  logs.foldl bumpStreak []

/-- The habits/general section (lines 481-503); no missing attribute, so
it is pure. -/
def habitsSection (db : Database) (u mm : Nat) (ctx : ContextData) : ContextData :=
  let habits :=
    (sortByDesc (fun h => h.id) (db.habits.filter (fun h => h.user_id == u))).take mm
  let habit_logs :=
    (sortByDesc (fun l => l.date) (db.habit_logs.filter (fun l => l.user_id == u))).take mm
  { ctx with habits := habits.map (fun h => h.name),
             habit_streaks := some (buildStreaks habit_logs) }

/-- The finance/general section (lines 505-528).  The three reads succeed;
then, if the user has a budget row, line 524 evaluates
`budget.total_amount` and raises `AttributeError` before the
`financial_status` dict can be built. -/
def financeSection (db : Database) (u mm : Nat) (ctx : ContextData) :
    Except PyErr ContextData :=
  let budget :=
    (sortByDesc (fun b => b.created_at) (db.budgets.filter (fun b => b.user_id == u))).head?
  let _financial_goals :=
    (sortByDesc (fun g => g.created_at) (db.financial_goals.filter (fun g => g.user_id == u))).take mm
  let _expenses :=
    (sortByDesc (fun e => e.date) (db.expenses.filter (fun e => e.user_id == u))).take mm
  match budget with
  | some _ => (classAttr budgetColumns "total_amount").map (fun _ => ctx)
  | none => Except.ok ctx

/-- The body of the `try` block at lines 401-541.  The module imports at
lines 402-409 all resolve (`CareerGoal`, `Habit`, `HabitLog`, `Budget`,
`Expense`, `FinancialGoal`, `MoodLog`, `User`, `Skill` all exist); the
user read and preferences section are pure; the remaining reads run in
source order until one raises. -/
def getUserContextBody (db : Database) (u : Nat) (ct : String) (mm : Nat) :
    Except PyErr ContextData :=
  let ctx0 := baseContext u ct
  let user := (db.users.filter (fun x => x.id == u)).head?
  let ctx1 := match user with
    | some usr => { ctx0 with preferences := some (prefsOf usr) }
    | none => ctx0
  (if ct == "career" || ct == "general" then careerSection db u mm ctx1
   else Except.ok ctx1).bind (fun ctx2 =>
  (let ctx3 := if ct == "habits" || ct == "general" then habitsSection db u mm ctx2 else ctx2
   (if ct == "finance" || ct == "general" then financeSection db u mm ctx3
    else Except.ok ctx3).bind (fun ctx4 =>
      -- lines 530-536: the mood-trends read, reached on every path that
      -- got this far; `MoodLog.timestamp` raises `AttributeError`.
      (classAttr moodLogColumns "timestamp").map (fun _ => ctx4))))

/-- `get_user_context` (lines 394-549): the `except` at line 543 converts
any raised error into the fallback dict; nothing in the world is written. -/
def getUserContext (w : World) (u : Nat) (ct : String) (mm : Nat) :
    ContextResult × World :=
  match getUserContextBody w.db u ct mm with
  | Except.ok c => (ContextResult.ok c, w)
  | Except.error _ => (ContextResult.failed u, w)

/-- Whether an absorbed-exception computation succeeded. -/
def isOkB {α : Type} : Except PyErr α → Bool
  | Except.ok _ => true
  | Except.error _ => false


/-! ## Concrete states used by the closed theorems below -/

/-- A database with no rows. -/
def emptyDb : Database :=
  { users := [], memories := [], career_goals := [], skills := [], habits := [],
    habit_logs := [], budgets := [], financial_goals := [], expenses := [],
    mood_logs := [] }

/-- Model and index loaded, index empty, empty snapshot on disk, empty
database; the model can encode the text `"hello"`. -/
def storeWorld : World :=
  { embedding_model := some [ ("hello", [1]) ]
    faiss_index := some ⟨[]⟩
    disk := some ⟨[]⟩
    db := emptyDb }

/-- No embedding model loaded. -/
def noModelWorld : World :=
  { embedding_model := none, faiss_index := some ⟨[]⟩, disk := none, db := emptyDb }

/-- Model loaded, but it cannot encode the query `"backend"`. -/
def noEncodeWorld : World :=
  { embedding_model := some [ ("known", [1]) ]
    faiss_index := some ⟨[]⟩, disk := none, db := emptyDb }

/-- Model and index loaded, one indexed vector, and the model can encode
the query `"q"`. -/
def overfetchWorld : World :=
  { embedding_model := some [ ("q", [1]) ]
    faiss_index := some ⟨[[1]]⟩, disk := none, db := emptyDb }

/-- A database holding a user and one of their habits. -/
def ctxDb : Database :=
  { emptyDb with
    users := [{ id := 1, email := "a@b.c", name := "A", preferences := [] }]
    habits := [{ id := 1, user_id := 1, name := "morning run",
                 description := "run 2km", category := "health",
                 frequency := "daily", created_at := 5 }] }

/-- World for exercising `get_user_context` on real data. -/
def ctxWorld : World :=
  { embedding_model := none, faiss_index := none, disk := none, db := ctxDb }
/-- On every input, `search_memories` hits the `ImportError` on `Memory`,
logs it and returns the empty list, leaving the world unchanged. -/
theorem searchMemories_eq (w : World) (user_id : Nat) (query : String)
    (memory_type : Option String) (top_k : Nat) :
    searchMemories w user_id query memory_type top_k = ([], w, [Event.logError]) := rfl

/-- `semantic_search` also returns no results on any input: every branch
ends in the (always-empty) `search_memories` fallback.  Only the trace
distinguishes the branches. -/
theorem semanticSearch_val (w : World) (user_id : Nat) (query : String)
    (memory_type : Option String) (top_k : Nat) :
    (semanticSearch w user_id query memory_type top_k).1 = [] ∧
      (semanticSearch w user_id query memory_type top_k).2.1 = w := by
  unfold semanticSearch
  split
  · exact ⟨rfl, rfl⟩
  · exact ⟨rfl, rfl⟩
  · split
    · exact ⟨rfl, rfl⟩
    · exact ⟨rfl, rfl⟩


/-- A bind whose continuation always fails, fails. -/
theorem bind_isOkB_false {α β : Type} (x : Except PyErr α) (f : α → Except PyErr β)
    (h : ∀ a, isOkB (f a) = false) : isOkB (x.bind f) = false := by
  cases x
  · rfl
  · exact h _

/-- The body of `get_user_context` raises on every input: whatever the
branch taken, the computation ends (at the latest) at the mood-trends read
of lines 530-533, whose `MoodLog.timestamp` does not exist. -/
theorem getUserContextBody_not_ok (db : Database) (u : Nat) (ct : String) (mm : Nat) :
    isOkB (getUserContextBody db u ct mm) = false := by
  unfold getUserContextBody
  exact bind_isOkB_false _ _ (fun ctx2 => bind_isOkB_false _ _ (fun ctx4 => rfl))

/-- When the model and index are loaded and the query embeds, the code
calls `faiss_index.search(query_embedding, top_k)` (line 709), then dies
on the `Memory` import (line 712) and falls back to the (empty) keyword
path via the handler at line 752. -/
theorem semanticSearch_embedOk (em : EmbedModel) (idx : FaissIndex)
    (disk0 : Option FaissIndex) (db : Database) (u : Nat) (q : String)
    (mt : Option String) (k : Nat) (v : List ℚ) (h : getEmbedding em q = some v) :
    semanticSearch ⟨some em, some idx, disk0, db⟩ u q mt k
      = ([], ⟨some em, some idx, disk0, db⟩,
         [Event.indexSearch k, Event.logError, Event.logError]) := by
  unfold semanticSearch
  simp only [h, searchMemories_eq]
  rfl

/-- When the model and index are loaded and the content embeds, the write
path of `store_memory`: position read at line 122, vector appended at line
123, snapshot written (or skipped with a logged error) at line 126, the
database write attempted and lost to the `ImportError` at line 132, logged
at line 152, `True` returned at line 155. -/
theorem storeMemory_available (diskOk : Bool) (em : EmbedModel) (idx : FaissIndex)
    (disk0 : Option FaissIndex) (db : Database) (u : Nat) (content : String)
    (mt : String) (md : List (String × String)) (v : List ℚ)
    (h : getEmbedding em content = some v) :
    storeMemory diskOk ⟨some em, some idx, disk0, db⟩ u content mt md
      = (true,
         ⟨some em, some (idx.add v), if diskOk then some (idx.add v) else disk0, db⟩,
         Event.indexAdd idx.ntotal ::
           ((if diskOk then [Event.diskWrite] else [Event.logError]) ++ [Event.logError])) := by
  unfold storeMemory
  simp only [h]
  cases diskOk
  · rfl
  · rfl

/-- C1.  Ownership isolation: every result returned by `search_memories`
or `semantic_search` called as user `B` belongs to `B` — in this code
vacuously, since every query path aborts on the failing `Memory` and
`UserSkill` imports and both operations return the empty list on every input,
so no record of any user `A ≠ B` (nor of `B`) is ever returned. -/
theorem ownership_isolation (w : World) (B : Nat) (q : String)
    (mt : Option String) (k : Nat) :
    ((searchMemories w B q mt k).1.all
        (fun r => (ownedContents w.db B).contains r.content)) = true ∧
    ((semanticSearch w B q mt k).1.all
        (fun r => (ownedContents w.db B).contains r.content)) = true := by
  constructor
  · rw [searchMemories_eq]; rfl
  · rw [(semanticSearch_val w B q mt k).1]; rfl

/-- C2.  At the failing input (model and index loaded, content encodable,
disk healthy): `store_memory` appends the vector at position 0 and
snapshots the index, but the record write is lost to the unconditional
`ImportError` on `Memory` (line 132) — the database keeps no row — and the
call still returns `True`.  The record carrying the returned position is
never written, on this or any other input. -/
theorem store_memory_record_write_lost :
    storeMemory true storeWorld 1 "hello" "general" []
      = (true,
         { storeWorld with faiss_index := some ⟨[[1]]⟩, disk := some ⟨[[1]]⟩ },
         [Event.indexAdd 0, Event.diskWrite, Event.logError])
      ∧ (storeMemory true storeWorld 1 "hello" "general" []).2.1.db.memories = [] :=
  ⟨rfl, rfl⟩

/-- C3.  Graceful degradation: when no embedding model is loaded, or the
model fails to embed the query, `semantic_search` raises nothing and
returns exactly what `search_memories` returns for the same arguments
(same results, same state, same trace). -/
theorem graceful_degradation (w : World) (u : Nat) (q : String)
    (mt : Option String) (k : Nat) :
    (w.embedding_model = none →
        semanticSearch w u q mt k = searchMemories w u q mt k) ∧
    (∀ em, w.embedding_model = some em → getEmbedding em q = none →
        semanticSearch w u q mt k = searchMemories w u q mt k) := by
  constructor
  · intro h
    unfold semanticSearch
    rw [h]
  · intro em h1 h2
    unfold semanticSearch
    rw [h1]
    cases hi : w.faiss_index
    · rfl
    · simp only [h2]

/-- C3 witness: the degradation theorem applied with no model loaded and
with a model that cannot encode the query `"backend"`. -/
theorem graceful_degradation_witness :
    semanticSearch noModelWorld 7 "backend" none 5
        = searchMemories noModelWorld 7 "backend" none 5 ∧
    semanticSearch noEncodeWorld 7 "backend" none 5
        = searchMemories noEncodeWorld 7 "backend" none 5 :=
  ⟨(graceful_degradation noModelWorld 7 "backend" none 5).1 rfl,
   (graceful_degradation noEncodeWorld 7 "backend" none 5).2 [ ("known", [1]) ] rfl rfl⟩

/-- C4 counterexample: the user of `ctxWorld` has a habit row, yet
`get_user_context(1, "general", 10)` returns the bare fallback placeholder
`{"user_id": 1, "error": ...}` — not a bundle with the surviving sections
(let alone a memory-search section, which no bundle ever contains). -/
theorem context_bundle_not_preserved :
    ctxWorld.db.habits ≠ [] ∧
    getUserContext ctxWorld 1 "general" 10 = (ContextResult.failed 1, ctxWorld) := by
  exact ⟨by decide, rfl⟩

/-- C4 (amended).  `get_user_context` indeed never lets an exception
escape, but a failing sub-fetch degrades the *whole* bundle, not just its
own section: the single `try/except` of lines 401-545 replaces everything
with the fallback dict.  In this code that happens on *every* call — the
mood-trends read (lines 531-533) dereferences the nonexistent
`MoodLog.timestamp` (and the career/general skills read dies earlier on
`Skill.proficiency_level`) — so the result is always the placeholder and
the state is untouched. -/
theorem get_user_context_always_fallback (w : World) (u : Nat) (ct : String) (mm : Nat) :
    getUserContext w u ct mm = (ContextResult.failed u, w) := by
  have h := getUserContextBody_not_ok w.db u ct mm
  unfold getUserContext
  cases hb : getUserContextBody w.db u ct mm
  · rfl
  · rw [hb] at h
    exact absurd h (by simp [isOkB])

/-- C5.  `search_memories(owner_id, "")` (no `memory_type`) returns the
empty list and raises no error — as it does for every other query, since
the `Memory` import failure empties every call. -/
theorem empty_query_returns_empty (w : World) (u : Nat) (k : Nat) :
    (searchMemories w u "" none k).1 = [] ∧
    searchMemories w u "" none k = ([], w, [Event.logError]) :=
  ⟨rfl, rfl⟩

/-- C6 counterexample: with the model and index loaded and the query
encodable, a `semantic_search` with `top_k = 5` never asks the Vector
Index for `top_k * 2 = 10` candidates; the trace shows the index was asked
for exactly 5 (line 709 passes `top_k`, and there is no similarity
threshold anywhere on the path). -/
theorem semantic_overfetch_counterexample :
    (Event.indexSearch (5 * 2) ∉ (semanticSearch overfetchWorld 1 "q" none 5).2.2) ∧
    Event.indexSearch 5 ∈ (semanticSearch overfetchWorld 1 "q" none 5).2.2 := by
  decide

/-- C6 (amended).  When the semantic path runs (model and index loaded,
query encodable), the one and only Vector Index search it performs asks
for exactly `top_k` candidates — not `top_k * 2`. -/
theorem semantic_fetch_exactly_top_k (em : EmbedModel) (idx : FaissIndex)
    (disk0 : Option FaissIndex) (db : Database) (u : Nat) (q : String)
    (mt : Option String) (k : Nat) (v : List ℚ) (h : getEmbedding em q = some v) :
    ((semanticSearch ⟨some em, some idx, disk0, db⟩ u q mt k).2.2.filter
        Event.isIndexSearch) = [Event.indexSearch k] := by
  rw [semanticSearch_embedOk em idx disk0 db u q mt k v h]
  rfl

/-- C6 witness: the fetch-count theorem applied at `overfetchWorld`. -/
theorem semantic_fetch_exactly_top_k_witness :
    ((semanticSearch overfetchWorld 1 "q" none 5).2.2.filter
        Event.isIndexSearch) = [Event.indexSearch 5] :=
  semantic_fetch_exactly_top_k [ ("q", [1]) ] ⟨[[1]]⟩ none emptyDb 1 "q" none 5 [1] rfl

/-- C7.  Result shape and ranking: both search operations return at most
`top_k` results, sorted by score descending, and in the untargeted keyword
path the relevance tiers (generic memories, career goals, habits,
financial goals) appear in order — all of it vacuously, because both
operations return the empty list on every input. -/
theorem result_shape_and_ranking (w : World) (u : Nat) (q : String)
    (mt : Option String) (k : Nat) :
    (searchMemories w u q mt k).1.length ≤ k ∧
    (semanticSearch w u q mt k).1.length ≤ k ∧
    List.Pairwise (fun a b => b.score ≤ a.score) (searchMemories w u q mt k).1 ∧
    List.Pairwise (fun a b => b.score ≤ a.score) (semanticSearch w u q mt k).1 ∧
    List.Pairwise (fun a b => tierRank a.origin ≤ tierRank b.origin)
      (searchMemories w u q none k).1 := by
  have h2 := (semanticSearch_val w u q mt k).1
  refine ⟨?_, ?_, ?_, ?_, ?_⟩
  · rw [searchMemories_eq]; exact Nat.zero_le k
  · rw [h2]; exact Nat.zero_le k
  · rw [searchMemories_eq]; exact List.Pairwise.nil
  · rw [h2]; exact List.Pairwise.nil
  · rw [searchMemories_eq]; exact List.Pairwise.nil

/-- C8.  Unavailable-store atomicity: when the embedding model or the
FAISS index is unavailable, or the model fails to embed the content,
`store_memory` returns `False` without raising and mutates nothing — no
vector is added, no snapshot written, no record stored (lines 98-105 run
before any mutation). -/
theorem store_unavailable_atomic (diskOk : Bool) (w : World) (u : Nat)
    (content : String) (mt : String) (md : List (String × String))
    (h : w.embedding_model = none ∨ w.faiss_index = none ∨
         ∀ em, w.embedding_model = some em → getEmbedding em content = none) :
    storeMemory diskOk w u content mt md = (false, w, []) := by
  unfold storeMemory
  cases hm : w.embedding_model
  · rfl
  · cases hi : w.faiss_index
    · rfl
    · rcases h with h | h | h
      · rw [hm] at h; exact absurd h (by simp)
      · rw [hi] at h; exact absurd h (by simp)
      · simp only [h _ hm]

/-- C8 witness: the atomicity theorem applied with no model loaded. -/
theorem store_unavailable_atomic_witness :
    storeMemory true noModelWorld 1 "hello" "general" [] = (false, noModelWorld, []) :=
  store_unavailable_atomic true noModelWorld 1 "hello" "general" [] (Or.inl rfl)

/-- C9 counterexample: with a failing disk write (`faiss.write_index`
raising inside `_save_index`, lines 70-71), `store_memory` still returns
`True`, the in-memory index holds the new vector, but the on-disk
snapshot is unchanged — it does not contain the newly added vector. -/
theorem snapshot_skipped_on_disk_error :
    (storeMemory false storeWorld 1 "hello" "general" []).1 = true ∧
    (storeMemory false storeWorld 1 "hello" "general" []).2.1.faiss_index = some ⟨[[1]]⟩ ∧
    (storeMemory false storeWorld 1 "hello" "general" []).2.1.disk = some ⟨[]⟩ :=
  ⟨rfl, rfl, rfl⟩

/-- C9 (amended).  Every successful `store_memory` *attempts* the
snapshot after the vector add and before returning; when the disk write
succeeds, the whole new index — including the newly added vector — is on
disk, and the trace shows the add strictly before the write.  A failed
disk write, however, is logged and swallowed, and the call still reports
success (see the counterexample). -/
theorem snapshot_after_successful_store (em : EmbedModel) (idx : FaissIndex)
    (disk0 : Option FaissIndex) (db : Database) (u : Nat) (content : String)
    (mt : String) (md : List (String × String)) (v : List ℚ)
    (h : getEmbedding em content = some v) :
    storeMemory true ⟨some em, some idx, disk0, db⟩ u content mt md
      = (true, ⟨some em, some (idx.add v), some (idx.add v), db⟩,
         [Event.indexAdd idx.ntotal, Event.diskWrite, Event.logError])
      ∧ (idx.add v).vectors = idx.vectors ++ [v] := by
  constructor
  · rw [storeMemory_available true em idx disk0 db u content mt md v h]
    rfl
  · rfl

/-- C9 witness: the snapshot theorem applied at `storeWorld`. -/
theorem snapshot_after_successful_store_witness :
    storeMemory true storeWorld 1 "hello" "general" []
      = (true, ⟨some [ ("hello", [1]) ], some ⟨[[1]]⟩, some ⟨[[1]]⟩, emptyDb⟩,
         [Event.indexAdd 0, Event.diskWrite, Event.logError])
      ∧ (FaissIndex.add ⟨[]⟩ [1]).vectors = [] ++ [[1]] :=
  snapshot_after_successful_store [ ("hello", [1]) ] ⟨[]⟩ (some ⟨[]⟩) emptyDb
    1 "hello" "general" [] [1] rfl

/-- C10.  The read operations are effect-free: `search_memories`,
`semantic_search` and `get_user_context` return the world exactly as they
found it — every memory row (in particular `access_count` and
`last_accessed`, which only `UserMemory.update_access` would touch, and
which no search path calls) and the vector index are unchanged. -/
theorem reads_are_effect_free (w : World) (u : Nat) (q : String)
    (mt : Option String) (k : Nat) (ct : String) (mm : Nat) :
    (searchMemories w u q mt k).2.1 = w ∧
    (semanticSearch w u q mt k).2.1 = w ∧
    (getUserContext w u ct mm).2 = w ∧
    (searchMemories w u q mt k).2.1.db.memories = w.db.memories ∧
    (semanticSearch w u q mt k).2.1.faiss_index = w.faiss_index := by
  refine ⟨rfl, (semanticSearch_val w u q mt k).2, ?_, rfl, ?_⟩
  · unfold getUserContext
    split
    · rfl
    · rfl
  · rw [(semanticSearch_val w u q mt k).2]
